import Mathlib

/-!
Verification of the libvirt-rest-controller provisioning pipeline and image
cache against its specification.

Each Go function relevant to the claims is shallowly embedded as a pure Lean
function over an explicit filesystem / domain state; side effects (network
downloads, file copies, virsh invocations) are recorded as event traces so
that claims about "no download happened" or about step ordering can be stated
directly.
-/

namespace LibvirtCtl

/-! ## Shared filesystem model

A file is its content together with its age (seconds since last
modification, measured at the moment of the call, mirroring
`time.Since(info.ModTime())`) and its permission bits. The filesystem is an
association list from paths to files; paths are unique, so removal is a
filter and an update replaces the previous entry. -/

structure File where
  content : String
  modAge : Int
  mode : Nat
  deriving DecidableEq, Repr

abbrev Fs := List (String × File)

def Fs.find (fs : Fs) (p : String) : Option File :=
  List.lookup p fs

def Fs.set (fs : Fs) (p : String) (f : File) : Fs :=
  (p, f) :: fs.filter (fun kv => kv.1 != p)

/-- Externally visible effects of the cache manager. -/
inductive Event where
  | httpGet (url : String)
  | copy (src dst : String)
  | mkdirAll (path : String)
  deriving DecidableEq, Repr

/-- Outcome of `http.Get(url)` followed by the body copy, as observed by
`DownloadFile`: a connection error, a non-200 response, a 200 response whose
body copy fails after writing a prefix, or a complete 200 response. -/
inductive NetOutcome where
  | connError
  | badStatus (code : Nat)
  | copyFail (partialBody : String)
  | ok (body : String)
  deriving DecidableEq, Repr

inductive DlError where
  | connError
  | badStatus (code : Nat)
  | copyFail
  deriving DecidableEq, Repr

/-- Mode given to `os.Create` (0666 before umask). -/
def createMode : Nat := 0o666

/-- Embedding of `DownloadFile` (internal/filesystem/files.go:40 and
unnamed/part_008:68). The crucial, source-faithful detail: `os.Create`
truncates (or creates) the destination file before any network activity, and
nothing removes the truncated file when the download fails. -/
def DownloadFile (net : String → NetOutcome) (url filePath : String)
    (mode : Nat) (fs : Fs) : Except DlError Unit × Fs × List Event :=
  let fs1 := fs.set filePath ⟨"", 0, createMode⟩
  match net url with
  | .connError => (.error .connError, fs1, [.httpGet url])
  | .badStatus c => (.error (.badStatus c), fs1, [.httpGet url])
  | .copyFail part =>
      (.error .copyFail, fs1.set filePath ⟨part, 0, createMode⟩, [.httpGet url])
  | .ok body =>
      (.ok (), fs.set filePath ⟨body, 0, mode⟩, [.httpGet url])

inductive CpError where
  | srcMissing
  deriving DecidableEq, Repr

/-- Embedding of `CopyFile` (files.go:114): open the source (fails when it
is absent), create the destination, copy, chmod. -/
def CopyFile (fs : Fs) (src dst : String) (mode : Nat) :
    Except CpError Unit × Fs × List Event :=
  match fs.find src with
  | none => (.error .srcMissing, fs, [])
  | some f => (.ok (), fs.set dst ⟨f.content, 0, mode⟩, [.copy src dst])

/-! ## `filepath.Base` and friends -/

def stripTrailingSlashes (cs : List Char) : List Char :=
  (cs.reverse.dropWhile (· = '/')).reverse

/-- Embedding of Go `filepath.Base`: empty path gives ".", all-slash paths
give "/", otherwise everything after the last slash once trailing slashes
are removed. -/
def basenameChars (cs : List Char) : List Char :=
  if cs = [] then ['.']
  else
    let s := stripTrailingSlashes cs
    if s = [] then ['/']
    else (s.reverse.takeWhile (· ≠ '/')).reverse

def basename (s : String) : String :=
  String.mk (basenameChars s.data)

/-- `filepath.Join(dir, name)` for a non-empty `dir` and a separator-free
`name`, which is how the cache manager uses it. -/
def joinPath (dir name : String) : String :=
  dir ++ "/" ++ name

/-! ## `strconv.Atoi` and the freshness window -/

def digitVal (c : Char) : Option Nat :=
  if '0' ≤ c ∧ c ≤ '9' then some (c.toNat - '0'.toNat) else none

def parseDigits : List Char → Nat → Option Nat
  | [], acc => some acc
  | c :: cs, acc =>
      match digitVal c with
      | some d => parseDigits cs (acc * 10 + d)
      | none => none

/-- Embedding of `strconv.Atoi`: an optional sign followed by at least one
decimal digit. -/
def atoi (s : String) : Option Int :=
  match s.data with
  | [] => none
  | '+' :: cs => if cs = [] then none else (parseDigits cs 0).map Int.ofNat
  | '-' :: cs => if cs = [] then none else (parseDigits cs 0).map (fun n => -(n : Int))
  | cs => (parseDigits cs 0).map Int.ofNat

/-- The freshness window in seconds, computed from the `CACHE_SECONDS`
environment variable exactly as in unnamed/part_008:104-117: unset (empty)
or unparsable values fall back to 604800 seconds (7 days). -/
def cacheDurationSec (cacheSecondsStr : String) : Int :=
  if cacheSecondsStr ≠ "" then
    match atoi cacheSecondsStr with
    | some n => n
    | none => 604800
  else 604800

/-- Embedding of `FileExists` (files.go:99). -/
def FileExists (fs : Fs) (path : String) : Bool :=
  (fs.find path).isSome

/-- Embedding of `IsFileOlderThan` (files.go:105): a stat failure counts as
old; otherwise the file is older when its age strictly exceeds the
duration. -/
def IsFileOlderThan (fs : Fs) (path : String) (durationSec : Int) : Bool :=
  match fs.find path with
  | none => true
  | some f => decide (f.modAge > durationSec)

/-- Configuration read from the environment by `DownloadCachedFile`
(unnamed/part_008:99): `CACHE_DIR` (empty means caching disabled) and
`CACHE_SECONDS`. -/
structure CacheEnv where
  cacheDir : String
  cacheSeconds : String
  deriving DecidableEq, Repr

inductive ResolveError where
  | dl (e : DlError)
  | cp (e : CpError)
  deriving DecidableEq, Repr

/-- Embedding of `DownloadCachedFile` (unnamed/part_008:99-149): with no
cache directory configured, download straight to the destination; otherwise
derive the cache key with `filepath.Base(url)`, serve a fresh cached entry
by copying it, and otherwise download into the cache-local path and copy it
to the destination. -/
def DownloadCachedFile (env : CacheEnv) (net : String → NetOutcome)
    (url name : String) (mode : Nat) (fs : Fs) :
    Except ResolveError Unit × Fs × List Event :=
  let dur := cacheDurationSec env.cacheSeconds
  if env.cacheDir = "" then
    match DownloadFile net url name mode fs with
    | (.ok _, fs1, evs) => (.ok (), fs1, evs)
    | (.error e, fs1, evs) => (.error (.dl e), fs1, evs)
  else
    let fileName := basename url
    let cacheFilePath := joinPath env.cacheDir fileName
    if FileExists fs cacheFilePath && !(IsFileOlderThan fs cacheFilePath dur) then
      match CopyFile fs cacheFilePath name mode with
      | (.ok _, fs1, evs) => (.ok (), fs1, Event.mkdirAll env.cacheDir :: evs)
      | (.error e, fs1, evs) => (.error (.cp e), fs1, Event.mkdirAll env.cacheDir :: evs)
    else
      match DownloadFile net url cacheFilePath mode fs with
      | (.error e, fs1, evs) => (.error (.dl e), fs1, Event.mkdirAll env.cacheDir :: evs)
      | (.ok _, fs1, evs) =>
          match CopyFile fs1 cacheFilePath name mode with
          | (.ok _, fs2, evs2) => (.ok (), fs2, Event.mkdirAll env.cacheDir :: (evs ++ evs2))
          | (.error e, fs2, evs2) => (.error (.cp e), fs2, Event.mkdirAll env.cacheDir :: (evs ++ evs2))

theorem Fs.find_set_self (fs : Fs) (p : String) (f : File) :
    (fs.set p f).find p = some f := by
  simp [Fs.set, Fs.find, List.lookup]

/-- Shared fast-path fact: with caching enabled, a fresh cache entry is
copied to the destination and nothing else happens. -/
theorem cacheFastPath (env : CacheEnv) (net : String → NetOutcome)
    (url name : String) (mode : Nat) (fs : Fs) (f : File)
    (hcache : env.cacheDir ≠ "")
    (hfound : fs.find (joinPath env.cacheDir (basename url)) = some f)
    (hfresh : f.modAge ≤ cacheDurationSec env.cacheSeconds) :
    DownloadCachedFile env net url name mode fs =
      (.ok (), fs.set name ⟨f.content, 0, mode⟩,
        [.mkdirAll env.cacheDir,
         .copy (joinPath env.cacheDir (basename url)) name]) := by
  have hdec : decide (f.modAge > cacheDurationSec env.cacheSeconds) = false :=
    decide_eq_false (by omega)
  simp [DownloadCachedFile, hcache, FileExists, IsFileOlderThan, hfound, hdec,
    CopyFile]

/-- Claim C1: with caching enabled, a cached file whose age is within the
freshness window is copied to the destination with the requested permissions
and no network download happens; otherwise the URL is downloaded into the
cache-local path and then copied to the destination. The freshness window
defaults to 604800 seconds (7 days) when `CACHE_SECONDS` is unset or
unparsable, and a configured window of 0 makes every resolve performed after
the entry was written (age at least one second) re-download. -/
theorem downloadCachedFile_freshness_spec
    (env : CacheEnv) (net : String → NetOutcome) (url name : String)
    (mode : Nat) (fs : Fs) (f : File) (body : String)
    (hcache : env.cacheDir ≠ "") :
    (fs.find (joinPath env.cacheDir (basename url)) = some f →
      f.modAge ≤ cacheDurationSec env.cacheSeconds →
      DownloadCachedFile env net url name mode fs =
        (.ok (), fs.set name ⟨f.content, 0, mode⟩,
          [.mkdirAll env.cacheDir,
           .copy (joinPath env.cacheDir (basename url)) name])) ∧
    (fs.find (joinPath env.cacheDir (basename url)) = none →
      net url = .ok body →
      DownloadCachedFile env net url name mode fs =
        (.ok (),
          (fs.set (joinPath env.cacheDir (basename url)) ⟨body, 0, mode⟩).set
            name ⟨body, 0, mode⟩,
          [.mkdirAll env.cacheDir, .httpGet url,
           .copy (joinPath env.cacheDir (basename url)) name])) ∧
    (fs.find (joinPath env.cacheDir (basename url)) = some f →
      f.modAge > cacheDurationSec env.cacheSeconds →
      net url = .ok body →
      DownloadCachedFile env net url name mode fs =
        (.ok (),
          (fs.set (joinPath env.cacheDir (basename url)) ⟨body, 0, mode⟩).set
            name ⟨body, 0, mode⟩,
          [.mkdirAll env.cacheDir, .httpGet url,
           .copy (joinPath env.cacheDir (basename url)) name])) ∧
    (cacheDurationSec "" = 604800) ∧
    (∀ s, atoi s = none → cacheDurationSec s = 604800) ∧
    (cacheDurationSec "0" = 0) ∧
    (env.cacheSeconds = "0" →
      fs.find (joinPath env.cacheDir (basename url)) = some f →
      f.modAge ≥ 1 →
      net url = .ok body →
      DownloadCachedFile env net url name mode fs =
        (.ok (),
          (fs.set (joinPath env.cacheDir (basename url)) ⟨body, 0, mode⟩).set
            name ⟨body, 0, mode⟩,
          [.mkdirAll env.cacheDir, .httpGet url,
           .copy (joinPath env.cacheDir (basename url)) name])) := by
  refine ⟨?_, ?_, ?_, ?_, ?_, ?_, ?_⟩
  · intro h1 h2
    exact cacheFastPath env net url name mode fs f hcache h1 h2
  · intro h1 h2
    simp [DownloadCachedFile, hcache, FileExists, IsFileOlderThan, h1, h2,
      DownloadFile, CopyFile, Fs.find_set_self]
  · intro h1 h2 h3
    have hdec : decide (f.modAge > cacheDurationSec env.cacheSeconds) = true :=
      decide_eq_true h2
    simp [DownloadCachedFile, hcache, FileExists, IsFileOlderThan, h1, h3, hdec,
      DownloadFile, CopyFile, Fs.find_set_self]
  · rfl
  · intro s hs
    by_cases h : s = "" <;> simp [cacheDurationSec, h, hs]
  · rfl
  · intro hz h1 h2 h3
    have hdur : cacheDurationSec env.cacheSeconds = 0 := by rw [hz]; rfl
    have hdec : decide (f.modAge > cacheDurationSec env.cacheSeconds) = true :=
      decide_eq_true (by omega)
    simp [DownloadCachedFile, hcache, FileExists, IsFileOlderThan, h1, h3, hdec,
      DownloadFile, CopyFile, Fs.find_set_self]

/-- Witness for C1 at concrete inputs: a fresh hit (age 3 s, default
window), a miss that downloads then copies, the defaults, and the
zero-window refresh. -/
theorem downloadCachedFile_freshness_spec_witness :
    (DownloadCachedFile ⟨"/cache", ""⟩ (fun _ => .ok "BODY")
        "https://example/img.qcow2" "/data/vm/vm-1/0.img" 416
        [("/cache/img.qcow2", ⟨"TPL", 3, 420⟩)] =
      (.ok (),
        [("/data/vm/vm-1/0.img", ⟨"TPL", 0, 416⟩),
         ("/cache/img.qcow2", ⟨"TPL", 3, 420⟩)],
        [.mkdirAll "/cache", .copy "/cache/img.qcow2" "/data/vm/vm-1/0.img"])) ∧
    (DownloadCachedFile ⟨"/cache", ""⟩ (fun _ => .ok "BODY")
        "https://example/img.qcow2" "/data/vm/vm-1/0.img" 416 [] =
      (.ok (),
        [("/data/vm/vm-1/0.img", ⟨"BODY", 0, 416⟩),
         ("/cache/img.qcow2", ⟨"BODY", 0, 416⟩)],
        [.mkdirAll "/cache", .httpGet "https://example/img.qcow2",
         .copy "/cache/img.qcow2" "/data/vm/vm-1/0.img"])) ∧
    (DownloadCachedFile ⟨"/cache", "0"⟩ (fun _ => .ok "BODY")
        "https://example/img.qcow2" "/data/vm/vm-1/0.img" 416
        [("/cache/img.qcow2", ⟨"TPL", 3, 420⟩)] =
      (.ok (),
        [("/data/vm/vm-1/0.img", ⟨"BODY", 0, 416⟩),
         ("/cache/img.qcow2", ⟨"BODY", 0, 416⟩)],
        [.mkdirAll "/cache", .httpGet "https://example/img.qcow2",
         .copy "/cache/img.qcow2" "/data/vm/vm-1/0.img"])) := by
  refine ⟨?_, ?_, ?_⟩
  · have h := (downloadCachedFile_freshness_spec ⟨"/cache", ""⟩
      (fun _ => .ok "BODY") "https://example/img.qcow2" "/data/vm/vm-1/0.img"
      416 [("/cache/img.qcow2", ⟨"TPL", 3, 420⟩)] ⟨"TPL", 3, 420⟩ "BODY"
      (by decide)).1 (by decide) (by decide)
    exact h.trans (by rfl)
  · have h := (downloadCachedFile_freshness_spec ⟨"/cache", ""⟩
      (fun _ => .ok "BODY") "https://example/img.qcow2" "/data/vm/vm-1/0.img"
      416 [] ⟨"TPL", 3, 420⟩ "BODY" (by decide)).2.1 (by decide) rfl
    exact h.trans (by rfl)
  · have h := (downloadCachedFile_freshness_spec ⟨"/cache", "0"⟩
      (fun _ => .ok "BODY") "https://example/img.qcow2" "/data/vm/vm-1/0.img"
      416 [("/cache/img.qcow2", ⟨"TPL", 3, 420⟩)] ⟨"TPL", 3, 420⟩ "BODY"
      (by decide)).2.2.2.2.2.2 rfl (by decide) (by decide) rfl
    exact h.trans (by rfl)

/-- Claim C10: the cache key is `filepath.Base(url)`, so two URLs with the
same final path segment share one cache file, and a fresh entry written for
the first URL is served verbatim as the result of resolving the second URL,
with no network download of the second URL. -/
theorem downloadCachedFile_key_collision
    (env : CacheEnv) (net : String → NetOutcome) (url1 url2 dest2 : String)
    (mode : Nat) (fs : Fs) (f : File)
    (hcache : env.cacheDir ≠ "")
    (hbase : basename url1 = basename url2)
    (hfound : fs.find (joinPath env.cacheDir (basename url1)) = some f)
    (hfresh : f.modAge ≤ cacheDurationSec env.cacheSeconds) :
    joinPath env.cacheDir (basename url1) = joinPath env.cacheDir (basename url2) ∧
    DownloadCachedFile env net url2 dest2 mode fs =
      (.ok (), fs.set dest2 ⟨f.content, 0, mode⟩,
        [.mkdirAll env.cacheDir,
         .copy (joinPath env.cacheDir (basename url2)) dest2]) := by
  refine ⟨by rw [hbase], ?_⟩
  exact cacheFastPath env net url2 dest2 mode fs f hcache
    (by rw [← hbase]; exact hfound) hfresh

/-- Witness for C10: two distinct URLs whose final segment is
`img.qcow2`; the entry cached for the first is served for the second even
though the network would fail (so no download can have happened). -/
theorem downloadCachedFile_key_collision_witness :
    ("https://a.example/x/img.qcow2" ≠ "https://b.example/y/img.qcow2") ∧
    DownloadCachedFile ⟨"/cache", ""⟩ (fun _ => .connError)
        "https://b.example/y/img.qcow2" "/data/vm/vm-2/0.img" 416
        [("/cache/img.qcow2", ⟨"CONTENT-FETCHED-FOR-URL1", 3, 420⟩)] =
      (.ok (),
        [("/data/vm/vm-2/0.img", ⟨"CONTENT-FETCHED-FOR-URL1", 0, 416⟩),
         ("/cache/img.qcow2", ⟨"CONTENT-FETCHED-FOR-URL1", 3, 420⟩)],
        [.mkdirAll "/cache", .copy "/cache/img.qcow2" "/data/vm/vm-2/0.img"]) := by
  refine ⟨by decide, ?_⟩
  have h := (downloadCachedFile_key_collision ⟨"/cache", ""⟩
    (fun _ => .connError) "https://a.example/x/img.qcow2"
    "https://b.example/y/img.qcow2" "/data/vm/vm-2/0.img" 416
    [("/cache/img.qcow2", ⟨"CONTENT-FETCHED-FOR-URL1", 3, 420⟩)]
    ⟨"CONTENT-FETCHED-FOR-URL1", 3, 420⟩ (by decide) (by decide) (by decide)
    (by decide)).2
  exact h.trans (by rfl)

/-- Claim C3 is refuted by the code: `DownloadFile` truncates the
destination via `os.Create` before the HTTP request, so a network failure
(connection error or non-200 status) leaves an empty file at the cache-local
path — neither the previous complete content nor an absent entry. The
leftover empty file moreover passes the freshness check, so later resolves
serve it as a valid cache entry. -/
theorem downloadFile_truncates_on_failure :
    (DownloadFile (fun _ => .badStatus 404) "https://example/img.qcow2"
        "/cache/img.qcow2" 416
        [("/cache/img.qcow2", ⟨"OLD-COMPLETE-CONTENT", 100, 416⟩)] =
      (.error (.badStatus 404),
        [("/cache/img.qcow2", ⟨"", 0, createMode⟩)],
        [.httpGet "https://example/img.qcow2"])) ∧
    (DownloadFile (fun _ => .connError) "https://example/img.qcow2"
        "/cache/img.qcow2" 416 [] =
      (.error .connError,
        [("/cache/img.qcow2", ⟨"", 0, createMode⟩)],
        [.httpGet "https://example/img.qcow2"])) ∧
    FileExists [("/cache/img.qcow2", (⟨"", 0, createMode⟩ : File))]
        "/cache/img.qcow2" = true ∧
    IsFileOlderThan [("/cache/img.qcow2", (⟨"", 0, createMode⟩ : File))]
        "/cache/img.qcow2" 604800 = false :=
  ⟨rfl, rfl, rfl, rfl⟩

/-! ## Concurrent resolves of one locator (claim C2)

`DownloadCachedFile` takes no lock, so two concurrent calls for the same
locator interleave freely. Each call of the cache-enabled refresh path is
atomized into the source's own effect granularity:

  - `check`  — the `FileExists`/`IsFileOlderThan` read (part_008:136);
  - `create` — `os.Create(cacheFilePath)`, which truncates (files.go:42);
  - `get`    — `http.Get(url)`, the network download (files.go:49);
  - `write`  — `io.Copy` writing the body (files.go:61);
  - `copy`   — `CopyFile(cacheFilePath, dest)` (part_008:138/148).

A scheduler picks which process moves next; `run` executes a schedule. -/

namespace SingleFlight

inductive Pc where
  | check
  | create
  | get
  | write
  | copy
  | done
  deriving DecidableEq, Repr

structure Proc where
  pc : Pc
  dest : String
  deriving DecidableEq, Repr

structure Sys where
  fs : Fs
  procs : List Proc
  downloads : Nat
  deriving Repr

/-- One atomic step of one resolver process, for the shared cache path
`cachePath`, freshness window `dur`, true remote body `body` and requested
mode `mode`. -/
def stepProc (cachePath : String) (dur : Int) (body : String) (mode : Nat)
    (fs : Fs) (p : Proc) : Fs × Proc × Nat :=
  match p.pc with
  | .check =>
      if FileExists fs cachePath && !(IsFileOlderThan fs cachePath dur) then
        (fs, { p with pc := .copy }, 0)
      else
        (fs, { p with pc := .create }, 0)
  | .create => (fs.set cachePath ⟨"", 0, createMode⟩, { p with pc := .get }, 0)
  | .get => (fs, { p with pc := .write }, 1)
  | .write => (fs.set cachePath ⟨body, 0, mode⟩, { p with pc := .copy }, 0)
  | .copy =>
      match fs.find cachePath with
      | some f => (fs.set p.dest ⟨f.content, 0, mode⟩, { p with pc := .done }, 0)
      | none => (fs, { p with pc := .done }, 0)
  | .done => (fs, p, 0)

def stepSys (cachePath : String) (dur : Int) (body : String) (mode : Nat)
    (s : Sys) (i : Nat) : Sys :=
  match s.procs[i]? with
  | none => s
  | some p =>
      let r := stepProc cachePath dur body mode s.fs p
      { fs := r.1, procs := s.procs.set i r.2.1, downloads := s.downloads + r.2.2 }

def run (cachePath : String) (dur : Int) (body : String) (mode : Nat) :
    Sys → List Nat → Sys
  | s, [] => s
  | s, i :: rest => run cachePath dur body mode (stepSys cachePath dur body mode s i) rest

end SingleFlight

/-- Claim C2 is refuted by the code: `DownloadCachedFile` has no per-locator
mutex or single-flight mechanism, so two concurrent resolves of the same
never-before-seen locator can both pass the existence check and download
twice (first schedule), and a resolver that checks between another
resolver's truncating `os.Create` and its body write copies a
partially-written (empty) file to its destination instead of the body
(second schedule). -/
theorem downloadCachedFile_not_single_flight :
    (SingleFlight.run "/cache/img" 604800 "BODY" 416
        ⟨[], [⟨.check, "dest0"⟩, ⟨.check, "dest1"⟩], 0⟩
        [0, 1, 0, 0, 0, 0, 1, 1, 1, 1]).downloads = 2 ∧
    (SingleFlight.run "/cache/img" 604800 "BODY" 416
        ⟨[], [⟨.check, "dest0"⟩, ⟨.check, "dest1"⟩], 0⟩
        [0, 0, 1, 1, 0, 0, 0]).fs.find "dest1" = some ⟨"", 0, 416⟩ ∧
    "BODY" ≠ "" :=
  ⟨rfl, rfl, by decide⟩

/-! ## Delete ordering (claim C4)

`DeleteDomainHandler` (unnamed/part_002:296-324) runs hard power-off,
undefine, then directory removal. The control plane (`virsh`, reached
through `UndefineDomain`/`DestroyDomain` in unnamed/part_009:12-34) is
modeled by its observable success conditions: `destroy` fails unless the
domain is running, `undefine` fails when no domain definition exists. -/

namespace DeleteFlow

inductive DomState where
  | running
  | shutOff
  | absent
  deriving DecidableEq, Repr

structure VmState where
  dom : DomState
  dirExists : Bool
  deriving DecidableEq, Repr

inductive DEvent where
  | destroy
  | logWarn
  | undefine
  | removeDir
  deriving DecidableEq, Repr

/-- Model of `virsh destroy`: hard power-off fails when the domain is not
running (or absent). -/
def virshDestroy : DomState → Except String DomState
  | .running => .ok .shutOff
  | .shutOff => .error "domain is not running"
  | .absent => .error "failed to get domain"

/-- Model of `virsh undefine`: removing the definition fails when the
domain does not exist. -/
def virshUndefine : DomState → Except String DomState
  | .absent => .error "failed to get domain"
  | _ => .ok .absent

structure DeleteResult where
  status : Nat
  success : Bool
  finalState : VmState
  events : List DEvent
  deriving DecidableEq, Repr

/-- Embedding of `DeleteDomainHandler` (unnamed/part_002:296-324): the
destroy failure is only logged; an undefine failure aborts with HTTP 500
before the directory is touched; a directory-removal failure aborts with
HTTP 500; otherwise HTTP 200. -/
def DeleteDomainHandler (st : VmState) : DeleteResult :=
  let destroyed := virshDestroy st.dom
  let st1 : VmState :=
    match destroyed with
    | .ok d => { st with dom := d }
    | .error _ => st
  let evs1 : List DEvent :=
    match destroyed with
    | .ok _ => [.destroy]
    | .error _ => [.destroy, .logWarn]
  match virshUndefine st1.dom with
  | .error _ => ⟨500, false, st1, evs1 ++ [.undefine]⟩
  | .ok d2 =>
      let st2 : VmState := { st1 with dom := d2 }
      if st2.dirExists then
        ⟨200, true, { st2 with dirExists := false }, evs1 ++ [.undefine, .removeDir]⟩
      else
        ⟨500, false, st2, evs1 ++ [.undefine]⟩

end DeleteFlow

open DeleteFlow

/-- Claim C4: deleting a VM whose domain is already powered off still
succeeds — the destroy failure is only logged — and removes both the domain
definition and the directory, in the order destroy, undefine, remove;
deleting a VM with no domain definition fails at the undefine step and
leaves the directory untouched. -/
theorem deleteDomainHandler_ordering (st : VmState) :
    (st.dom = .shutOff → st.dirExists = true →
      DeleteDomainHandler st =
        ⟨200, true, ⟨.absent, false⟩,
          [.destroy, .logWarn, .undefine, .removeDir]⟩) ∧
    (st.dom = .absent →
      (DeleteDomainHandler st).success = false ∧
      (DeleteDomainHandler st).finalState.dirExists = st.dirExists ∧
      DEvent.removeDir ∉ (DeleteDomainHandler st).events) := by
  constructor
  · intro hdom hdir
    obtain ⟨d, e⟩ := st
    simp only at hdom hdir
    subst hdom; subst hdir
    rfl
  · intro hdom
    obtain ⟨d, e⟩ := st
    simp only at hdom
    subst hdom
    cases e <;> simp [DeleteDomainHandler, virshDestroy, virshUndefine]

/-- Witness for C4 at the two concrete states of the claim: a powered-off
domain with its directory, and a directory with no domain definition. -/
theorem deleteDomainHandler_ordering_witness :
    DeleteDomainHandler ⟨.shutOff, true⟩ =
      ⟨200, true, ⟨.absent, false⟩,
        [.destroy, .logWarn, .undefine, .removeDir]⟩ ∧
    (DeleteDomainHandler ⟨.absent, true⟩).success = false ∧
    (DeleteDomainHandler ⟨.absent, true⟩).finalState.dirExists = true ∧
    DEvent.removeDir ∉ (DeleteDomainHandler ⟨.absent, true⟩).events := by
  refine ⟨(deleteDomainHandler_ordering ⟨.shutOff, true⟩).1 rfl rfl, ?_⟩
  exact (deleteDomainHandler_ordering ⟨.absent, true⟩).2 rfl

/-! ## Domain status parsing (claim C6)

Embedding of `ParseDomainStatus` (internal/helpers/parsing.go:9-28). The
`bufio.Scanner` line splitting is modeled on character lists: split on
newline, no token after a final terminator, and a trailing carriage return
stripped from each line. -/

namespace Parsing

def splitOnNl : List Char → List (List Char)
  | [] => [[]]
  | c :: rest =>
      if c = '\n' then [] :: splitOnNl rest
      else
        match splitOnNl rest with
        | l :: ls => (c :: l) :: ls
        | [] => [[c]]

def dropCR (l : List Char) : List Char :=
  if l.getLast? = some '\r' then l.dropLast else l

/-- Lines produced by `bufio.Scanner` with `ScanLines` on the given text. -/
def scanLines (cs : List Char) : List (List Char) :=
  let ls := splitOnNl cs
  (if ls.getLast? = some ([] : List Char) then ls.dropLast else ls).map dropCR

/-- ASCII fragment of Go `unicode.IsSpace`, which is what
`strings.TrimSpace` trims (the Unicode space classes play no role here). -/
def goIsSpace (c : Char) : Bool :=
  c == ' ' || c == '\t' || c == '\n' || c == Char.ofNat 11 || c == Char.ofNat 12 || c == '\r'

def trimChars (l : List Char) : List Char :=
  ((l.dropWhile goIsSpace).reverse.dropWhile goIsSpace).reverse

/-- `strings.SplitN(line, ":", 2)`: the part after the first colon, `none`
when the line has no colon (in which case `len(parts) != 2` in the Go
code). -/
def afterFirstColon : List Char → Option (List Char)
  | [] => none
  | c :: rest => if c = ':' then some rest else afterFirstColon rest

def stateKey : List Char := ['S', 't', 'a', 't', 'e', ':']

/-- The scanning loop of `ParseDomainStatus`: the first line starting with
`State:` yields the trimmed text after its first colon; with no such line
the status is unparsable. -/
def parseLines : List (List Char) → Except Unit (List Char)
  | [] => .error ()
  | l :: ls =>
      if stateKey.isPrefixOf l then
        match afterFirstColon l with
        | some rest => .ok (trimChars rest)
        | none => parseLines ls
      else parseLines ls

def ParseDomainStatus (dominfo : String) : Except Unit String :=
  match parseLines (scanLines dominfo.data) with
  | .ok v => .ok (String.mk v)
  | .error _ => .error ()

theorem afterFirstColon_stateKey_append (t : List Char) :
    afterFirstColon (stateKey ++ t) = some t := by
  simp [stateKey, afterFirstColon]

theorem afterFirstColon_of_stateKey {l : List Char}
    (h : stateKey.isPrefixOf l = true) :
    afterFirstColon l = some (l.drop 6) := by
  obtain ⟨t, ht⟩ := List.isPrefixOf_iff_prefix.mp h
  rw [← ht, afterFirstColon_stateKey_append]
  simp [stateKey]

theorem parseLines_of_find_none {ls : List (List Char)}
    (h : ls.find? (fun x => stateKey.isPrefixOf x) = none) :
    parseLines ls = .error () := by
  induction ls with
  | nil => rfl
  | cons l ls ih =>
      cases hpf : stateKey.isPrefixOf l with
      | true =>
          simp only [List.find?, hpf] at h
          exact Option.noConfusion h
      | false =>
          simp only [List.find?, hpf] at h
          simp [parseLines, hpf, ih h]

theorem parseLines_of_find_some {ls : List (List Char)} {l : List Char}
    (h : ls.find? (fun x => stateKey.isPrefixOf x) = some l) :
    parseLines ls = .ok (trimChars (l.drop 6)) := by
  induction ls with
  | nil => simp [List.find?] at h
  | cons a ls ih =>
      cases hpf : stateKey.isPrefixOf a with
      | true =>
          simp only [List.find?, hpf, Option.some.injEq] at h
          subst h
          simp [parseLines, hpf, afterFirstColon_of_stateKey hpf]
      | false =>
          simp only [List.find?, hpf] at h
          simp [parseLines, hpf, ih h]

end Parsing

open Parsing

/-- Claim C6: for a domain-info text whose first line starting with
`State:` is `l`, parsing returns the trimmed text after the colon of `l`
(the six dropped characters are exactly `State:`, whose last character is
the colon); for a text with no such line it fails with the unparsable-status
error — never a default state. -/
theorem parseDomainStatus_spec (s : String) :
    (∀ l, (scanLines s.data).find? (fun x => stateKey.isPrefixOf x) = some l →
      ParseDomainStatus s = .ok (String.mk (trimChars (l.drop 6)))) ∧
    ((scanLines s.data).find? (fun x => stateKey.isPrefixOf x) = none →
      ParseDomainStatus s = .error ()) := by
  constructor
  · intro l h
    simp [ParseDomainStatus, parseLines_of_find_some h]
  · intro h
    simp [ParseDomainStatus, parseLines_of_find_none h]

/-- Witness for C6: a virsh dominfo response with `State: running` parses
to `running`; a response without a `State:` line is rejected. -/
theorem parseDomainStatus_spec_witness :
    ParseDomainStatus "Id: 1\nName: vm-1\nState: running\nCPU(s): 2\n" =
      .ok "running" ∧
    ParseDomainStatus "Name: vm-1\nno status here\n" = .error () := by
  constructor
  · have h := (parseDomainStatus_spec
      "Id: 1\nName: vm-1\nState: running\nCPU(s): 2\n").1
      "State: running".data (by rfl)
    exact h.trans (by rfl)
  · exact (parseDomainStatus_spec "Name: vm-1\nno status here\n").2 (by rfl)

/-! ## Directory creation (claim C8)

The repository carries two variants of `CreateDirectory`. The current
internal/filesystem/directory.go:10-12 delegates to `os.MkdirAll`, which
succeeds when the path is already a directory and fails with `ENOTDIR` when
it is a regular file. The duplicate at directory.go:53-61 (also
unnamed/part_008:9-17) stats first and rejects any existing path with a
generic error. -/

namespace DirStore

inductive Node where
  | dir
  | file
  deriving DecidableEq, Repr

abbrev PathFs := List (String × Node)

inductive DirErr where
  | notADir
  | alreadyExists
  deriving DecidableEq, Repr

/-- Embedding of `CreateDirectory` (directory.go:10): `os.MkdirAll`. -/
def CreateDirectory (fs : PathFs) (path : String) : Except DirErr PathFs :=
  match List.lookup path fs with
  | some .dir => .ok fs
  | some .file => .error .notADir
  | none => .ok ((path, .dir) :: fs)

/-- Embedding of the Stat-guarded `CreateDirectory` variant
(directory.go:53, part_008:9): any existing path — directory or regular
file — yields the error message `VM directory already exists`. -/
def CreateDirectoryStatGuard (fs : PathFs) (path : String) : Except DirErr PathFs :=
  match List.lookup path fs with
  | some _ => .error .alreadyExists
  | none => .ok ((path, .dir) :: fs)

end DirStore

open DirStore

/-- Claim C8 as stated is false for the Stat-guarded `CreateDirectory`
variant (directory.go:53-61 and part_008:9-17) cited by the claim: the
second call on the same path does not succeed, and a path occupied by a
regular file produces the same generic already-exists error rather than a
distinct path-conflict error. -/
theorem createDirectory_statguard_not_idempotent :
    CreateDirectoryStatGuard [] "/data/vm/vm-1" = .ok [("/data/vm/vm-1", .dir)] ∧
    CreateDirectoryStatGuard [("/data/vm/vm-1", .dir)] "/data/vm/vm-1" =
      .error .alreadyExists ∧
    CreateDirectoryStatGuard [("/data/vm/f.txt", .file)] "/data/vm/f.txt" =
      .error .alreadyExists :=
  ⟨rfl, rfl, rfl⟩

/-- Claim C8 amended: the `MkdirAll`-based `CreateDirectory`
(directory.go:10-12) is idempotent — a second call on the same path
succeeds and leaves the filesystem unchanged — and fails with the
not-a-directory error on a path occupied by a regular file; the duplicate
Stat-guarded variant instead rejects every existing path, second calls and
regular files alike, with its generic already-exists error. -/
theorem createDirectory_variants_spec (fs : PathFs) (p : String) :
    (∀ fs1, CreateDirectory fs p = .ok fs1 → CreateDirectory fs1 p = .ok fs1) ∧
    (List.lookup p fs = some .file → CreateDirectory fs p = .error .notADir) ∧
    (∀ n, List.lookup p fs = some n →
      CreateDirectoryStatGuard fs p = .error .alreadyExists) := by
  refine ⟨?_, ?_, ?_⟩
  · intro fs1 h
    match hl : List.lookup p fs with
    | some .dir =>
        simp [CreateDirectory, hl] at h
        subst h
        simp [CreateDirectory, hl]
    | some .file => simp [CreateDirectory, hl] at h
    | none =>
        simp [CreateDirectory, hl] at h
        subst h
        simp [CreateDirectory, List.lookup]
  · intro h
    simp [CreateDirectory, h]
  · intro n h
    simp [CreateDirectoryStatGuard, h]

/-- Witness for the amended C8 at concrete paths: create, re-create
(identical result), and a regular-file conflict for the `MkdirAll`
variant; already-exists rejection for the Stat-guarded variant. -/
theorem createDirectory_variants_spec_witness :
    CreateDirectory [("/data/vm/vm-1", .dir)] "/data/vm/vm-1" =
      .ok [("/data/vm/vm-1", .dir)] ∧
    CreateDirectory [("/data/vm/f.txt", .file)] "/data/vm/f.txt" =
      .error .notADir ∧
    CreateDirectoryStatGuard [("/data/vm/vm-1", .dir)] "/data/vm/vm-1" =
      .error .alreadyExists := by
  refine ⟨?_, ?_, ?_⟩
  · exact (createDirectory_variants_spec [] "/data/vm/vm-1").1
      [("/data/vm/vm-1", .dir)] rfl
  · exact (createDirectory_variants_spec [("/data/vm/f.txt", .file)]
      "/data/vm/f.txt").2.1 rfl
  · exact (createDirectory_variants_spec [("/data/vm/vm-1", .dir)]
      "/data/vm/vm-1").2.2 .dir rfl

/-! ## Lifecycle handlers (claim C9)

`StartDomainHandler`, `StopDomainHandler`, `RebootDomainHandler` and
`ResetDomainHandler` (unnamed/part_002:326-379) dispatch the corresponding
virsh command (unnamed/part_009:16-34), log a warning when it fails, and
respond HTTP 200 with a success body unconditionally. -/

namespace Lifecycle

/-- Result of `cmdutil.Execute` as seen by the handlers. -/
inductive CmdResult where
  | ok (out : String)
  | fail (msg : String)
  deriving DecidableEq, Repr

structure HResponse where
  status : Nat
  success : Bool
  deriving DecidableEq, Repr

inductive LEvent where
  | dispatch (cmd : String)
  | logWarn
  deriving DecidableEq, Repr

/-- The shared shape of the four lifecycle handlers: dispatch, log on
failure, always answer success. -/
def lifecycleHandler (cmd : String) (result : CmdResult) :
    HResponse × List LEvent :=
  match result with
  | .ok _ => (⟨200, true⟩, [.dispatch cmd])
  | .fail _ => (⟨200, true⟩, [.dispatch cmd, .logWarn])

/-- `StartDomainHandler` (part_002:326) → `virsh start`. -/
def StartDomainHandler (r : CmdResult) : HResponse × List LEvent :=
  lifecycleHandler "virsh start" r

/-- `StopDomainHandler` (part_002:370) → `virsh destroy`. -/
def StopDomainHandler (r : CmdResult) : HResponse × List LEvent :=
  lifecycleHandler "virsh destroy" r

/-- `RebootDomainHandler` (part_002:337) → `virsh reboot`. -/
def RebootDomainHandler (r : CmdResult) : HResponse × List LEvent :=
  lifecycleHandler "virsh reboot" r

/-- `ResetDomainHandler` (part_002:348) → `virsh reset`. -/
def ResetDomainHandler (r : CmdResult) : HResponse × List LEvent :=
  lifecycleHandler "virsh reset" r

end Lifecycle

open Lifecycle

/-- Claim C9: every Start, Stop, Reboot and Reset request that dispatches
its control-plane command answers HTTP 200 success, whether or not the
command failed; a failure only adds a log entry, never an error response. -/
theorem lifecycle_handlers_always_succeed (r : CmdResult) :
    (StartDomainHandler r).1 = ⟨200, true⟩ ∧
    (StopDomainHandler r).1 = ⟨200, true⟩ ∧
    (RebootDomainHandler r).1 = ⟨200, true⟩ ∧
    (ResetDomainHandler r).1 = ⟨200, true⟩ ∧
    LEvent.dispatch "virsh start" ∈ (StartDomainHandler r).2 ∧
    LEvent.dispatch "virsh destroy" ∈ (StopDomainHandler r).2 ∧
    LEvent.dispatch "virsh reboot" ∈ (RebootDomainHandler r).2 ∧
    LEvent.dispatch "virsh reset" ∈ (ResetDomainHandler r).2 := by
  cases r <;>
    simp [StartDomainHandler, StopDomainHandler, RebootDomainHandler,
      ResetDomainHandler, lifecycleHandler]

/-! ## Customization-image synthesis (claim C7)

Two variants of `GenerateCloudInitISO` exist. The one cited by the claim
(internal/helpers/image.go:25-43) hands `genisoimage` the paths
`user-data`, `meta-data`, `network-data` unconditionally; the variant in
unnamed/part_014:26-62 filters missing files and substitutes `/dev/null`
when none exist. The external `genisoimage` tool fails when an input path
does not exist, which is the only behavior of it modeled here. -/

namespace CloudInit

abbrev DirFs := List (String × String)

def setFile (fs : DirFs) (p content : String) : DirFs :=
  (p, content) :: fs.filter (fun kv => kv.1 != p)

/-- Stat-level existence; the `/dev/null` device always exists. -/
def pathExists (fs : DirFs) (p : String) : Bool :=
  p == "/dev/null" || (List.lookup p fs).isSome

def joinDir (dir n : String) : String :=
  dir ++ "/" ++ n

inductive IsoEvent where
  | genIso (inputs : List String)
  deriving DecidableEq, Repr

/-- Model of the external `genisoimage` invocation: it succeeds exactly
when every input path exists. -/
def genIsoOk (fs : DirFs) (inputs : List String) : Bool :=
  inputs.all (pathExists fs)

/-- The produced image records which inputs went into it. -/
def isoContent (inputs : List String) : String :=
  String.intercalate " " inputs

/-- Embedding of `GenerateCloudInitISO` (image.go:25-43): `user-data`,
`meta-data` and `network-data` are passed to `genisoimage` whether or not
they exist. -/
def GenerateCloudInitISO (fs : DirFs) (dir : String) :
    Except String Unit × DirFs × List IsoEvent :=
  let isoPath := joinDir dir "cloud-init.iso"
  let inputs := [joinDir dir "user-data", joinDir dir "meta-data",
    joinDir dir "network-data"]
  if genIsoOk fs inputs then
    (.ok (), setFile fs isoPath (isoContent inputs), [.genIso inputs])
  else
    (.error "failed to create cloud-init ISO", fs, [.genIso inputs])

/-- Embedding of the `GenerateCloudInitISO` variant of part_014:26-62:
missing files are filtered out and `/dev/null` is substituted when no
customization document exists at all. -/
def GenerateCloudInitISOFiltered (fs : DirFs) (dir : String) :
    Except String Unit × DirFs × List IsoEvent :=
  let isoPath := joinDir dir "cloud-init.iso"
  let files := [joinDir dir "meta-data", joinDir dir "vendor-data",
    joinDir dir "user-data", joinDir dir "network-data"]
  let valid := files.filter (pathExists fs)
  let inputs := if valid.isEmpty then ["/dev/null"] else valid
  if genIsoOk fs inputs then
    (.ok (), setFile fs isoPath (isoContent inputs), [.genIso inputs])
  else
    (.error "failed to create cloud-init ISO", fs, [.genIso inputs])

structure CloudInitDocs where
  metaData : String
  vendorData : String
  userData : String
  networkConfig : String
  deriving DecidableEq, Repr

/-- The customization phase of `CreateVMHandler` (unnamed/part_005:135-150):
each document is written only when non-empty. -/
def saveCloudInitFiles (dir : String) (docs : CloudInitDocs) (fs : DirFs) : DirFs :=
  let pairs := [("meta-data", docs.metaData), ("vendor-data", docs.vendorData),
    ("user-data", docs.userData), ("network-config", docs.networkConfig)]
  pairs.foldl
    (fun acc kv => if kv.2 ≠ "" then setFile acc (joinDir dir kv.1) kv.2 else acc) fs

end CloudInit

open CloudInit

/-- Claim C7 is refuted by the cited code: a Create with no customization
documents writes no files, and `GenerateCloudInitISO` of image.go then
invokes the ISO tool on three nonexistent paths and fails — no placeholder
is substituted and no customization image appears in the VM directory. The
part_014 variant, which the spec describes, substitutes `/dev/null` and
succeeds, leaving a placeholder image. -/
theorem generateCloudInitISO_no_placeholder :
    saveCloudInitFiles "/data/vm/vm-1" ⟨"", "", "", ""⟩ [] = [] ∧
    (GenerateCloudInitISO [] "/data/vm/vm-1").1 =
      .error "failed to create cloud-init ISO" ∧
    List.lookup "/data/vm/vm-1/cloud-init.iso"
      (GenerateCloudInitISO [] "/data/vm/vm-1").2.1 = none ∧
    (GenerateCloudInitISO [] "/data/vm/vm-1").2.2 =
      [.genIso ["/data/vm/vm-1/user-data", "/data/vm/vm-1/meta-data",
        "/data/vm/vm-1/network-data"]] ∧
    (GenerateCloudInitISOFiltered [] "/data/vm/vm-1").1 = .ok () ∧
    List.lookup "/data/vm/vm-1/cloud-init.iso"
      (GenerateCloudInitISOFiltered [] "/data/vm/vm-1").2.1 =
      some (isoContent ["/dev/null"]) :=
  ⟨rfl, rfl, rfl, rfl, rfl, rfl⟩

/-! ## VM update (claim C5)

Embedding of `UpdateVMHandler` (unnamed/part_004:209-317). The handler
first removes `server.xml`, `server.json`, `meta-data`, `vendor-data`,
`user-data` and `network-config` (aborting on any `DeleteFile` error, and
`DeleteFile` errors whenever the file is absent, part_004:241-248), then
tries to read the just-deleted `server.json` back (part_004:250-256), and
only after that would compare old and new disk capacities and resize
(part_004:264-273). -/

namespace UpdateFlow

structure VMDisk where
  id : Nat
  capacity : Int
  storagePath : String
  deriving DecidableEq, Repr

structure VMRequest where
  id : String
  disks : List VMDisk
  xmlConfig : String
  metaData : String
  vendorData : String
  userData : String
  networkConfig : String
  deriving DecidableEq, Repr

/-- A document in the VM directory: either raw text or a `server.json`
that deserializes back into a request. -/
inductive Doc where
  | text (s : String)
  | request (r : VMRequest)
  deriving DecidableEq, Repr

structure VmFs where
  vmDirIsFile : Bool
  files : List (String × Doc)
  diskSizes : List (Nat × Int)
  deriving DecidableEq, Repr

inductive UEvent where
  | resize (diskId : Nat) (sizeGB : Int)
  | save (name : String)
  deriving DecidableEq, Repr

inductive UOutcome where
  | success
  | httpError (msg : String)
  | panicked
  deriving DecidableEq, Repr

def updateFilesToRemove : List String :=
  ["server.xml", "server.json", "meta-data", "vendor-data", "user-data",
   "network-config"]

/-- The removal loop of part_004:242-248: `DeleteFile` stats first and
returns a plain (non-`os.IsNotExist`) error when the file is absent, so the
handler aborts on the first missing file; otherwise every listed file is
removed. The Bool records whether the loop aborted. -/
def deleteFilesLoop : List String → List (String × Doc) →
    List (String × Doc) × Bool
  | [], files => (files, false)
  | n :: rest, files =>
      if (List.lookup n files).isSome then
        deleteFilesLoop rest (files.filter (fun kv => kv.1 != n))
      else
        (files, true)

def setSize (sizes : List (Nat × Int)) (d : Nat) (c : Int) : List (Nat × Int) :=
  (d, c) :: sizes.filter (fun kv => kv.1 != d)

/-- The capacity-comparison loop of part_004:265-273: disk `i` of the old
request is resized to the new capacity exactly when a new disk `i` exists
and its capacity is strictly larger. -/
def resizeLoop (newDisks : List VMDisk) (oldDisks : List VMDisk)
    (sizes : List (Nat × Int)) (i : Nat) : List (Nat × Int) × List UEvent :=
  match oldDisks with
  | [] => (sizes, [])
  | od :: rest =>
      match newDisks[i]? with
      | some nd =>
          if nd.capacity > od.capacity then
            let r := resizeLoop newDisks rest (setSize sizes od.id nd.capacity) (i + 1)
            (r.1, .resize od.id nd.capacity :: r.2)
          else
            resizeLoop newDisks rest sizes (i + 1)
      | none => resizeLoop newDisks rest sizes (i + 1)

def setDoc (files : List (String × Doc)) (n : String) (d : Doc) :
    List (String × Doc) :=
  (n, d) :: files.filter (fun kv => kv.1 != n)

/-- The rewrite phase of part_004:275-308: new request snapshot, new device
definition, then the non-empty customization documents. -/
def saveNewDocs (req : VMRequest) (files : List (String × Doc)) :
    List (String × Doc) × List UEvent :=
  let f1 := setDoc files "server.json" (.request req)
  let f2 := setDoc f1 "server.xml" (.text req.xmlConfig)
  let pairs := [("meta-data", req.metaData), ("vendor-data", req.vendorData),
    ("user-data", req.userData), ("network-config", req.networkConfig)]
  let f3 := pairs.foldl
    (fun acc kv => if kv.2 ≠ "" then setDoc acc kv.1 (.text kv.2) else acc) f2
  (f3, [.save "server.json", .save "server.xml"])

/-- The tail of `UpdateVMHandler` from the read-back of `server.json`
(part_004:250) onwards, applied to the directory contents left by the
removal loop. -/
def updateAfterRemoval (req : VMRequest) (st : VmFs)
    (files1 : List (String × Doc)) : UOutcome × VmFs × List UEvent :=
  match List.lookup "server.json" files1 with
  | none =>
      (.httpError "Failed to read old server.json",
        { st with files := files1 }, [])
  | some (.text _) =>
      (.httpError "Failed to parse old server.json",
        { st with files := files1 }, [])
  | some (.request oldReq) =>
      let rs := resizeLoop req.disks oldReq.disks st.diskSizes 0
      let sv := saveNewDocs req files1
      (.success, { st with files := sv.1, diskSizes := rs.1 }, rs.2 ++ sv.2)

/-- Embedding of `UpdateVMHandler` (part_004:209-317). -/
def UpdateVMHandler (req : VMRequest) (st : VmFs) :
    UOutcome × VmFs × List UEvent :=
  if req.id = "" then
    (.httpError "Missing vm.id", st, [])
  else
    match req.disks with
    | [] => (.panicked, st, [])
    | _ :: _ =>
        if st.vmDirIsFile then
          (.httpError "Failed to create VM directory", st, [])
        else
          match deleteFilesLoop updateFilesToRemove st.files with
          | (files1, true) =>
              (.httpError "Failed to remove file", { st with files := files1 }, [])
          | (files1, false) => updateAfterRemoval req st files1

theorem lookup_filter_self {β : Type} (n : String) (l : List (String × β)) :
    List.lookup n (l.filter (fun kv => kv.1 != n)) = none := by
  induction l with
  | nil => rfl
  | cons kv rest ih =>
      by_cases h : kv.1 = n
      · simpa [List.filter, h] using ih
      · have hne : (kv.1 != n) = true := by simp [h]
        have hne2 : (n == kv.1) = false := by
          simp [BEq.beq]
          exact fun he => h he.symm
        simp [List.filter, hne, List.lookup, hne2, ih]

theorem lookup_none_filter {β : Type} (n m : String) (l : List (String × β))
    (h : List.lookup n l = none) :
    List.lookup n (l.filter (fun kv => kv.1 != m)) = none := by
  induction l with
  | nil => rfl
  | cons kv rest ih =>
      cases hb : (n == kv.1) with
      | true => simp [List.lookup, hb] at h
      | false =>
          simp only [List.lookup, hb] at h
          by_cases hm : (kv.1 != m) = true
          · simp [List.filter, hm, List.lookup, hb, ih h]
          · simp only [Bool.not_eq_true] at hm
            simp [List.filter, hm, ih h]

theorem deleteFilesLoop_preserve_none (names : List String)
    (files : List (String × Doc)) (n : String)
    (h : List.lookup n files = none) :
    List.lookup n (deleteFilesLoop names files).1 = none := by
  induction names generalizing files with
  | nil => simpa [deleteFilesLoop] using h
  | cons m rest ih =>
      cases hm : (List.lookup m files).isSome with
      | true =>
          simp only [deleteFilesLoop, hm, if_true]
          exact ih _ (lookup_none_filter n m files h)
      | false =>
          simp only [deleteFilesLoop, hm, Bool.false_eq_true, if_false]
          exact h

theorem deleteFilesLoop_removed (names : List String)
    (files : List (String × Doc)) (n : String) (hmem : n ∈ names)
    (hok : (deleteFilesLoop names files).2 = false) :
    List.lookup n (deleteFilesLoop names files).1 = none := by
  induction names generalizing files with
  | nil => cases hmem
  | cons m rest ih =>
      cases hm : (List.lookup m files).isSome with
      | true =>
          simp only [deleteFilesLoop, hm, if_true] at hok ⊢
          rcases List.mem_cons.mp hmem with hnm | hnr
          · subst hnm
            exact deleteFilesLoop_preserve_none rest _ n (lookup_filter_self n files)
          · exact ih _ hnr hok
      | false =>
          simp [deleteFilesLoop, hm] at hok

end UpdateFlow

/-- Claim C5 is refuted by the code: `UpdateVMHandler` deletes
`server.json` in its removal loop and then tries to read it back, so every
Update fails with the read error (or earlier), never reaches the
capacity-comparison loop, performs no resize, and leaves every disk image
size unchanged — including disks whose requested capacity is higher than
the recorded one. The last conjunct evaluates the handler on a concrete
well-formed update (recorded capacity 10, requested capacity 20, all six
documents present). -/
theorem updateVMHandler_never_resizes (req : UpdateFlow.VMRequest)
    (st : UpdateFlow.VmFs) :
    (UpdateFlow.UpdateVMHandler req st).1 ≠ .success ∧
    (UpdateFlow.UpdateVMHandler req st).2.2 = [] ∧
    (UpdateFlow.UpdateVMHandler req st).2.1.diskSizes = st.diskSizes ∧
    (UpdateFlow.UpdateVMHandler
        ⟨"vm-1", [⟨0, 20, "/data/vm"⟩], "<domain/>", "", "", "", ""⟩
        ⟨false,
          [("server.xml", .text "<domain/>"),
           ("server.json", .request ⟨"vm-1", [⟨0, 10, "/data/vm"⟩], "<domain/>", "", "", "", ""⟩),
           ("meta-data", .text "m"), ("vendor-data", .text "v"),
           ("user-data", .text "u"), ("network-config", .text "n")],
          [(0, 10)]⟩).1 =
      .httpError "Failed to read old server.json" := by
  have key : (UpdateFlow.UpdateVMHandler req st).1 ≠ .success ∧
      (UpdateFlow.UpdateVMHandler req st).2.2 = [] ∧
      (UpdateFlow.UpdateVMHandler req st).2.1.diskSizes = st.diskSizes := by
    unfold UpdateFlow.UpdateVMHandler
    split
    · simp
    · split
      · simp
      · split
        · simp
        · split
          · simp
          · rename_i files1 heq
            have h2 : (UpdateFlow.deleteFilesLoop UpdateFlow.updateFilesToRemove st.files).2 = false := by
              rw [heq]
            have hnone := UpdateFlow.deleteFilesLoop_removed
              UpdateFlow.updateFilesToRemove st.files "server.json"
              (by simp [UpdateFlow.updateFilesToRemove]) h2
            rw [heq] at hnone
            simp only at hnone
            simp [UpdateFlow.updateAfterRemoval, hnone]
  exact ⟨key.1, key.2.1, key.2.2, rfl⟩

/-- Witness for C5 at the concrete failing input: an update raising disk 0
from the recorded 10 GB to 20 GB over a fully-populated VM directory still
ends in an error, emits no events, and leaves the image size at 10. -/
theorem updateVMHandler_never_resizes_witness :
    (UpdateFlow.UpdateVMHandler
        ⟨"vm-1", [⟨0, 20, "/data/vm"⟩], "<domain/>", "", "", "", ""⟩
        ⟨false,
          [("server.xml", .text "<domain/>"),
           ("server.json", .request ⟨"vm-1", [⟨0, 10, "/data/vm"⟩], "<domain/>", "", "", "", ""⟩),
           ("meta-data", .text "m"), ("vendor-data", .text "v"),
           ("user-data", .text "u"), ("network-config", .text "n")],
          [(0, 10)]⟩).1 ≠ .success ∧
    (UpdateFlow.UpdateVMHandler
        ⟨"vm-1", [⟨0, 20, "/data/vm"⟩], "<domain/>", "", "", "", ""⟩
        ⟨false,
          [("server.xml", .text "<domain/>"),
           ("server.json", .request ⟨"vm-1", [⟨0, 10, "/data/vm"⟩], "<domain/>", "", "", "", ""⟩),
           ("meta-data", .text "m"), ("vendor-data", .text "v"),
           ("user-data", .text "u"), ("network-config", .text "n")],
          [(0, 10)]⟩).2.2 = [] ∧
    (UpdateFlow.UpdateVMHandler
        ⟨"vm-1", [⟨0, 20, "/data/vm"⟩], "<domain/>", "", "", "", ""⟩
        ⟨false,
          [("server.xml", .text "<domain/>"),
           ("server.json", .request ⟨"vm-1", [⟨0, 10, "/data/vm"⟩], "<domain/>", "", "", "", ""⟩),
           ("meta-data", .text "m"), ("vendor-data", .text "v"),
           ("user-data", .text "u"), ("network-config", .text "n")],
          [(0, 10)]⟩).2.1.diskSizes = [(0, 10)] := by
  have h := updateVMHandler_never_resizes
    ⟨"vm-1", [⟨0, 20, "/data/vm"⟩], "<domain/>", "", "", "", ""⟩
    ⟨false,
      [("server.xml", .text "<domain/>"),
       ("server.json", .request ⟨"vm-1", [⟨0, 10, "/data/vm"⟩], "<domain/>", "", "", "", ""⟩),
       ("meta-data", .text "m"), ("vendor-data", .text "v"),
       ("user-data", .text "u"), ("network-config", .text "n")],
      [(0, 10)]⟩
  exact ⟨h.1, h.2.1, h.2.2.1⟩

/-- Witness for C9: a failing control-plane command (domain already in the
target state) still yields HTTP 200 success from all four handlers. -/
theorem lifecycle_handlers_always_succeed_witness :
    (StartDomainHandler (.fail "domain is already active")).1 = ⟨200, true⟩ ∧
    (StopDomainHandler (.fail "domain is not running")).1 = ⟨200, true⟩ ∧
    (RebootDomainHandler (.fail "domain is not running")).1 = ⟨200, true⟩ ∧
    (ResetDomainHandler (.fail "domain is not running")).1 = ⟨200, true⟩ := by
  refine ⟨?_, ?_, ?_, ?_⟩
  · exact (lifecycle_handlers_always_succeed (.fail "domain is already active")).1
  · exact (lifecycle_handlers_always_succeed (.fail "domain is not running")).2.1
  · exact (lifecycle_handlers_always_succeed (.fail "domain is not running")).2.2.1
  · exact (lifecycle_handlers_always_succeed (.fail "domain is not running")).2.2.2.1

end LibvirtCtl
